import Mathlib

/-!
Shallow embedding of the query-construction and result-materialization layer of
the ravendb-nodejs-client repository: the `DocumentQueryBase` / `DocumentQuery`
classes (parameter table, value transforms, the fluent where-clause surface,
`single` / `first` / `count` result shaping, `executeQuery` and
`convertResponseToDocuments`).

The query builder (`QueryBuilder`) is an external collaborator behind the
`IQueryBuilder` interface: the embedding records every call the query makes on
it as an element of an append-only log (`BuilderCall`), which is exactly the
information the claims are about.  The conventions collaborator
(`DocumentConventions`) and `DateUtil.stringify` are likewise abstracted as
function parameters, matching the external-interface boundary.
-/

namespace RavenQuery

/-- A JavaScript condition value as accepted by the query condition methods
(`ConditionValue` in the source): `null`, booleans, numbers, strings, `Date`
objects (carried as an abstract timestamp), possibly nested arrays of values,
and `obj`, standing for any other JavaScript value (a plain object, function,
and so on), which `transformValue` rejects. -/
inductive ConditionValue where
  | null : ConditionValue
  | bool : Bool → ConditionValue
  | num : Int → ConditionValue
  | str : String → ConditionValue
  | date : Nat → ConditionValue
  | arr : List ConditionValue → ConditionValue
  | obj : ConditionValue
deriving Repr

mutual

/-- Boolean equality on condition values (structural, recursing into arrays). -/
def ConditionValue.beq : ConditionValue → ConditionValue → Bool
  | ConditionValue.null, ConditionValue.null => true
  | ConditionValue.bool a, ConditionValue.bool b => a == b
  | ConditionValue.num a, ConditionValue.num b => a == b
  | ConditionValue.str a, ConditionValue.str b => a == b
  | ConditionValue.date a, ConditionValue.date b => a == b
  | ConditionValue.arr as, ConditionValue.arr bs => ConditionValue.beqList as bs
  | ConditionValue.obj, ConditionValue.obj => true
  | _, _ => false

/-- Boolean equality on lists of condition values. -/
def ConditionValue.beqList : List ConditionValue → List ConditionValue → Bool
  | [], [] => true
  | a :: as, b :: bs => ConditionValue.beq a b && ConditionValue.beqList as bs
  | _, _ => false

end

instance : BEq ConditionValue := ⟨ConditionValue.beq⟩

mutual

theorem ConditionValue.beq_iff_eq : ∀ a b : ConditionValue, ConditionValue.beq a b = true ↔ a = b
  | ConditionValue.null, b => by cases b <;> simp [ConditionValue.beq]
  | ConditionValue.bool a, b => by cases b <;> simp [ConditionValue.beq]
  | ConditionValue.num a, b => by cases b <;> simp [ConditionValue.beq]
  | ConditionValue.str a, b => by cases b <;> simp [ConditionValue.beq]
  | ConditionValue.date a, b => by cases b <;> simp [ConditionValue.beq]
  | ConditionValue.obj, b => by cases b <;> simp [ConditionValue.beq]
  | ConditionValue.arr as, b => by
      cases b <;> simp [ConditionValue.beq]
      exact ConditionValue.beqList_iff_eq as _

theorem ConditionValue.beqList_iff_eq :
    ∀ as bs : List ConditionValue, ConditionValue.beqList as bs = true ↔ as = bs
  | [], bs => by cases bs <;> simp [ConditionValue.beqList]
  | a :: as, bs => by
      cases bs with
      | nil => simp [ConditionValue.beqList]
      | cons b bs =>
        simp [ConditionValue.beqList, ConditionValue.beq_iff_eq a b,
          ConditionValue.beqList_iff_eq as bs]

end

instance : DecidableEq ConditionValue := fun a b =>
  decidable_of_iff (ConditionValue.beq a b = true) (ConditionValue.beq_iff_eq a b)

instance {ε α : Type} [DecidableEq ε] [DecidableEq α] : DecidableEq (Except ε α) := fun a b =>
  match a, b with
  | Except.error e, Except.error f =>
    decidable_of_iff (e = f) (by simp)
  | Except.ok x, Except.ok y =>
    decidable_of_iff (x = y) (by simp)
  | Except.error _, Except.ok _ => Decidable.isFalse (by simp)
  | Except.ok _, Except.error _ => Decidable.isFalse (by simp)

/-- `TypeUtil.isNull(value)` as used by the where methods. -/
def isNullValue : ConditionValue → Bool
  | ConditionValue.null => true
  | _ => false

/-- The error message thrown by `DocumentQuery.transformValue` for an
unsupported value type (`InvalidArgumentException`). -/
def invalidValueMessage : String :=
  "Invalid value passed to query condition. Only integer / number / string and null values are supported"

/-- `WhereParams` as handed to `transformValue`: the positional
`whereEquals(fieldName, value, exact)` form is normalized into this structure
by `WhereParams.from` before any shared logic runs. -/
structure WhereParams where
  fieldName : String
  value : ConditionValue
  exact : Bool
  allowWildcards : Bool
deriving Repr, DecidableEq

/-- `DocumentQuery.transformValue`: `null` stays `null`, the empty string stays
the empty string, a `Date` is rendered through `DateUtil.stringify`
(abstracted as the `stringifyDate` parameter), booleans / numbers / strings
pass through unchanged, and anything else throws `InvalidArgumentException`.
The source checks `typeof value` against `["boolean", "number", "string"]`, so
arrays and other objects both fall into the error branch. -/
def transformValue (stringifyDate : Nat → String) (whereParams : WhereParams) :
    Except String ConditionValue :=
  match whereParams.value with
  | ConditionValue.null => Except.ok ConditionValue.null
  | ConditionValue.str s => Except.ok (ConditionValue.str s)
  | ConditionValue.date d => Except.ok (ConditionValue.str (stringifyDate d))
  | ConditionValue.bool b => Except.ok (ConditionValue.bool b)
  | ConditionValue.num n => Except.ok (ConditionValue.num n)
  | ConditionValue.arr _ => Except.error invalidValueMessage
  | ConditionValue.obj => Except.error invalidValueMessage

mutual

/-- One element's contribution to `DocumentQuery.unpackValuesArray`: an array
element is recursively flattened, any other element stays as is. -/
def unpackValue : ConditionValue → List ConditionValue
  | ConditionValue.null => [ConditionValue.null]
  | ConditionValue.bool b => [ConditionValue.bool b]
  | ConditionValue.num n => [ConditionValue.num n]
  | ConditionValue.str s => [ConditionValue.str s]
  | ConditionValue.date d => [ConditionValue.date d]
  | ConditionValue.arr vs => unpackValuesArray vs
  | ConditionValue.obj => [ConditionValue.obj]

/-- `DocumentQuery.unpackValuesArray`: flattens arbitrarily nested arrays of
condition values into a flat list, recursing into every element that is an
array and keeping every other element as is. -/
def unpackValuesArray : List ConditionValue → List ConditionValue
  | [] => []
  | v :: rest => unpackValue v ++ unpackValuesArray rest

end

/-- The per-element loop of `DocumentQuery.transformValuesArray`: each element
passes through `transformValue` wrapped in a `WhereParams` with
`allowWildcards: true`, aborting on the first unsupported element. -/
def transformEach (stringifyDate : Nat → String) (fieldName : String) :
    List ConditionValue → Except String (List ConditionValue)
  | [] => Except.ok []
  | value :: rest =>
    match transformValue stringifyDate (WhereParams.mk fieldName value false true) with
    | Except.error e => Except.error e
    | Except.ok transformed =>
      match transformEach stringifyDate fieldName rest with
      | Except.error e => Except.error e
      | Except.ok transformedRest => Except.ok (transformed :: transformedRest)

/-- `DocumentQuery.transformValuesArray`: unpacks the values array and passes
each flattened element through `transformValue`. -/
def transformValuesArray (stringifyDate : Nat → String) (fieldName : String)
    (values : List ConditionValue) : Except String (List ConditionValue) :=
  transformEach stringifyDate fieldName (unpackValuesArray values)

/-- One call recorded on the `IQueryBuilder` collaborator.  Only the calls the
claims mention are distinguished; every parameter-name argument is the `String`
returned by `addQueryParameter`.  `selectFields` carries the optional
projections argument of the two-argument `IQueryBuilder.selectFields` overload
so that forwarding (or not forwarding) projections is observable. -/
inductive BuilderCall where
  | whereEquals (fieldName parameterName : String) (exact : Bool)
  | whereNotEquals (fieldName parameterName : String) (exact : Bool)
  | whereIn (fieldName parameterName : String) (exact : Option Bool)
  | whereAllIn (fieldName parameterName : String)
  | whereBetween (fieldName fromParameterName toParameterName : String) (exact : Option Bool)
  | whereGreaterThan (fieldName parameterName : String) (exact : Option Bool)
  | whereGreaterThanOrEqual (fieldName parameterName : String) (exact : Option Bool)
  | whereLessThan (fieldName parameterName : String) (exact : Option Bool)
  | whereLessThanOrEqual (fieldName parameterName : String) (exact : Option Bool)
  | selectFields (fields : List String) (projections : Option (List String))
deriving Repr, DecidableEq

/-- The mutable state of a `DocumentQuery` the filter methods touch: the
insertion-ordered `queryParameters` table (`DocumentQueryParameters`, keys
generated as `p0`, `p1`, ...) and the log of calls made on `_builder`. -/
structure QueryState where
  queryParameters : List (String × ConditionValue)
  builderCalls : List BuilderCall
deriving Repr, DecidableEq

/-- A freshly created query: empty parameter table, no builder calls yet. -/
def initialState : QueryState := QueryState.mk [] []

/-- The parameter name generated for the `n`-th registered parameter. -/
def parameterName (n : Nat) : String := "p" ++ toString n

/-- `DocumentQuery.addQueryParameter`: generates `p<size>` from the current
table size, stores the value under it and returns the generated name. -/
def addQueryParameter (st : QueryState) (valueOrValues : ConditionValue) :
    String × QueryState :=
  (parameterName st.queryParameters.length,
   QueryState.mk
     (st.queryParameters ++ [(parameterName st.queryParameters.length, valueOrValues)])
     st.builderCalls)

/-- Appends one recorded builder call to the state. -/
def recordBuilderCall (st : QueryState) (call : BuilderCall) : QueryState :=
  QueryState.mk st.queryParameters (st.builderCalls ++ [call])

/-- `DocumentQuery.whereEquals` in its normalized form: transform the value
(throwing on unsupported types before any state is touched), register the
transformed value, then call `_builder.whereEquals` with the parameter name. -/
def whereEquals (stringifyDate : Nat → String) (st : QueryState)
    (fieldName : String) (value : ConditionValue) (exact : Bool) :
    Except String QueryState :=
  match transformValue stringifyDate (WhereParams.mk fieldName value exact false) with
  | Except.error e => Except.error e
  | Except.ok transformedValue =>
    let named := addQueryParameter st transformedValue
    Except.ok (recordBuilderCall named.2 (BuilderCall.whereEquals fieldName named.1 exact))

/-- `DocumentQuery.whereNotEquals`, same shape as `whereEquals`. -/
def whereNotEquals (stringifyDate : Nat → String) (st : QueryState)
    (fieldName : String) (value : ConditionValue) (exact : Bool) :
    Except String QueryState :=
  match transformValue stringifyDate (WhereParams.mk fieldName value exact false) with
  | Except.error e => Except.error e
  | Except.ok transformedValue =>
    let named := addQueryParameter st transformedValue
    Except.ok (recordBuilderCall named.2 (BuilderCall.whereNotEquals fieldName named.1 exact))

/-- `DocumentQuery.whereIn`: runs `transformValuesArray` (so an unsupported
element still throws), but then registers the ORIGINAL `values` array — not
the flattened transformed list, which is computed and discarded — and always
emits the builder call, with no empty-list guard. -/
def whereIn (stringifyDate : Nat → String) (st : QueryState) (fieldName : String)
    (values : List ConditionValue) (exact : Option Bool) : Except String QueryState :=
  match transformValuesArray stringifyDate fieldName values with
  | Except.error e => Except.error e
  | Except.ok _transformedValues =>
    let named := addQueryParameter st (ConditionValue.arr values)
    Except.ok (recordBuilderCall named.2 (BuilderCall.whereIn fieldName named.1 exact))

/-- `DocumentQuery.containsAny`: transforms and flattens the values, and only
when the flattened list is non-empty registers it and emits
`_builder.whereIn` (called without the `exact` argument). -/
def containsAny (stringifyDate : Nat → String) (st : QueryState) (fieldName : String)
    (values : List ConditionValue) : Except String QueryState :=
  match transformValuesArray stringifyDate fieldName values with
  | Except.error e => Except.error e
  | Except.ok transformedValues =>
    if transformedValues.length ≠ 0 then
      let named := addQueryParameter st (ConditionValue.arr transformedValues)
      Except.ok (recordBuilderCall named.2 (BuilderCall.whereIn fieldName named.1 none))
    else
      Except.ok st

/-- `DocumentQuery.containsAll`: like `containsAny` but emitting
`_builder.whereAllIn` when the flattened list is non-empty. -/
def containsAll (stringifyDate : Nat → String) (st : QueryState) (fieldName : String)
    (values : List ConditionValue) : Except String QueryState :=
  match transformValuesArray stringifyDate fieldName values with
  | Except.error e => Except.error e
  | Except.ok transformedValues =>
    if transformedValues.length ≠ 0 then
      let named := addQueryParameter st (ConditionValue.arr transformedValues)
      Except.ok (recordBuilderCall named.2 (BuilderCall.whereAllIn fieldName named.1))
    else
      Except.ok st

/-- `DocumentQuery.whereBetween`: `transformedFrom` starts as the sentinel
string `'*'` and is overwritten by the transformed `start` when `start` is not
null; `transformedTo` starts as `'NULL'` and is overwritten by the transformed
`end` when `end` is not null.  Both parameters are then registered (from
first, then to) and one `_builder.whereBetween` call is made. -/
def whereBetween (stringifyDate : Nat → String) (st : QueryState) (fieldName : String)
    (start «end» : ConditionValue) (exact : Option Bool) : Except String QueryState :=
  let fromResult : Except String ConditionValue :=
    if isNullValue start then Except.ok (ConditionValue.str "*")
    else transformValue stringifyDate (WhereParams.mk fieldName start (exact.getD false) false)
  let toResult : Except String ConditionValue :=
    if isNullValue «end» then Except.ok (ConditionValue.str "NULL")
    else transformValue stringifyDate (WhereParams.mk fieldName «end» (exact.getD false) false)
  match fromResult with
  | Except.error e => Except.error e
  | Except.ok transformedFrom =>
    match toResult with
    | Except.error e => Except.error e
    | Except.ok transformedTo =>
      let namedFrom := addQueryParameter st transformedFrom
      let namedTo := addQueryParameter namedFrom.2 transformedTo
      Except.ok (recordBuilderCall namedTo.2
        (BuilderCall.whereBetween fieldName namedFrom.1 namedTo.1 exact))

/-- `DocumentQuery.whereGreaterThan`: a null value is replaced by the sentinel
string `'*'`; otherwise the value is transformed.  One parameter is registered
and `_builder.whereGreaterThan` is called. -/
def whereGreaterThan (stringifyDate : Nat → String) (st : QueryState) (fieldName : String)
    (value : ConditionValue) (exact : Option Bool) : Except String QueryState :=
  let valueResult : Except String ConditionValue :=
    if isNullValue value then Except.ok (ConditionValue.str "*")
    else transformValue stringifyDate (WhereParams.mk fieldName value (exact.getD false) false)
  match valueResult with
  | Except.error e => Except.error e
  | Except.ok transformedValue =>
    let named := addQueryParameter st transformedValue
    Except.ok (recordBuilderCall named.2 (BuilderCall.whereGreaterThan fieldName named.1 exact))

/-- `DocumentQuery.whereGreaterThanOrEqual`: same sentinel `'*'` as
`whereGreaterThan`. -/
def whereGreaterThanOrEqual (stringifyDate : Nat → String) (st : QueryState) (fieldName : String)
    (value : ConditionValue) (exact : Option Bool) : Except String QueryState :=
  let valueResult : Except String ConditionValue :=
    if isNullValue value then Except.ok (ConditionValue.str "*")
    else transformValue stringifyDate (WhereParams.mk fieldName value (exact.getD false) false)
  match valueResult with
  | Except.error e => Except.error e
  | Except.ok transformedValue =>
    let named := addQueryParameter st transformedValue
    Except.ok (recordBuilderCall named.2 (BuilderCall.whereGreaterThanOrEqual fieldName named.1 exact))

/-- `DocumentQuery.whereLessThan`: a null value is replaced by the sentinel
string `'NULL'`; otherwise the value is transformed. -/
def whereLessThan (stringifyDate : Nat → String) (st : QueryState) (fieldName : String)
    (value : ConditionValue) (exact : Option Bool) : Except String QueryState :=
  let valueResult : Except String ConditionValue :=
    if isNullValue value then Except.ok (ConditionValue.str "NULL")
    else transformValue stringifyDate (WhereParams.mk fieldName value (exact.getD false) false)
  match valueResult with
  | Except.error e => Except.error e
  | Except.ok transformedValue =>
    let named := addQueryParameter st transformedValue
    Except.ok (recordBuilderCall named.2 (BuilderCall.whereLessThan fieldName named.1 exact))

/-- `DocumentQuery.whereLessThanOrEqual`: same sentinel `'NULL'` as
`whereLessThan`. -/
def whereLessThanOrEqual (stringifyDate : Nat → String) (st : QueryState) (fieldName : String)
    (value : ConditionValue) (exact : Option Bool) : Except String QueryState :=
  let valueResult : Except String ConditionValue :=
    if isNullValue value then Except.ok (ConditionValue.str "NULL")
    else transformValue stringifyDate (WhereParams.mk fieldName value (exact.getD false) false)
  match valueResult with
  | Except.error e => Except.error e
  | Except.ok transformedValue =>
    let named := addQueryParameter st transformedValue
    Except.ok (recordBuilderCall named.2 (BuilderCall.whereLessThanOrEqual fieldName named.1 exact))

/-- `DocumentQuery.selectFields(fields, projections?)`: the body calls
`this._builder.selectFields(fields)` only — the optional `projections`
argument is never forwarded. -/
def selectFields (st : QueryState) (fields : List String)
    (_projections : Option (List String)) : QueryState :=
  recordBuilderCall st (BuilderCall.selectFields fields none)

/-! ### Execution and conversion (`DocumentQueryBase`)

`R` is the type of raw response documents, `T` the target entity type. -/

/-- The response envelope (`IRavenResponse` as consumed here): `Results`,
`Includes`, `TotalResults` (absent on a synthesized empty envelope) and
`IsStale`. -/
structure Response (R : Type) where
  results : List R
  includes : List R
  totalResults : Option Int
  isStale : Bool
deriving Repr, DecidableEq

/-- The envelope `executeQuery` synthesizes for a null response: only
`Results: []` and `Includes: []` are set. -/
def emptyEnvelope (R : Type) : Response R :=
  Response.mk [] [] none false

/-- The message of the `ErrorResponseException` raised on a stale response. -/
def staleResponseMessage : String :=
  "The index is still stale after reached the timeout"

/-- `DocumentQueryBase.executeQuery`, from the point where the execution
layer's promise settles: a rejection propagates, a null response becomes the
synthesized empty envelope, a response with `IsStale` becomes the staleness
error, any other response is passed through unchanged.  The input
`executionOutcome` is what `requestExecutor.execute(queryCommand)` delivered:
an error, null, or a response. -/
def executeQuery {R : Type} (executionOutcome : Except String (Option (Response R))) :
    Except String (Response R) :=
  match executionOutcome with
  | Except.error e => Except.error e
  | Except.ok none => Except.ok (emptyEnvelope R)
  | Except.ok (some response) =>
    if response.isStale then Except.error staleResponseMessage
    else Except.ok response

/-- What `DocumentConventions.convertToDocument` returns, reduced to the parts
this layer consumes: the converted document (the rest of the conversion
metadata is carried abstractly by the type `T` chosen for conversion
results). -/
structure ConversionResult (T : Type) where
  document : T
deriving Repr, DecidableEq

/-- The conventions collaborator as consumed by `convertResponseToDocuments`,
per the external-interface boundary: fetch results / includes from the
envelope, convert one raw document, and flag projections. -/
structure Conventions (R T : Type) where
  tryFetchResults : Response R → List R
  tryFetchIncludes : Response R → List R
  convertToDocument : R → ConversionResult T
  checkIsProjection : R → Bool

/-- A notification emitted on the query's `Observable` surface. -/
inductive QueryEvent (R T : Type) where
  | documentsQueried
  | documentFetched (conversionResult : ConversionResult T)
  | includesFetched (includes : List R)
deriving Repr, DecidableEq

/-- The shaped return value of `convertResponseToDocuments`: a plain array of
entities, or `{results, response}` when statistics mode is enabled. -/
inductive ConvertedResults (R T : Type) where
  | plain (results : List T)
  | withStats (results : List T) (response : Response R)
deriving Repr, DecidableEq

/-- The entity list inside a shaped result (the `<T[]>` cast the terminal
methods apply after forcing statistics off). -/
def ConvertedResults.resultsList {R T : Type} : ConvertedResults R T → List T
  | ConvertedResults.plain results => results
  | ConvertedResults.withStats results _ => results

/-- `DocumentQueryBase.convertResponseToDocuments`, returning the shaped value
together with the list of notifications emitted, in emission order: if the
fetched result set is empty the initial `[]` is returned unchanged (also in
statistics mode) and nothing is emitted; otherwise each raw result is
converted, every non-projection conversion emits one `documentFetched`, then a
single `includesFetched` is emitted if the fetched includes are non-empty, and
finally the value is shaped according to `withStatistics`. -/
def convertResponseToDocuments {R T : Type} (conventions : Conventions R T)
    (withStatistics : Bool) (response : Response R) :
    ConvertedResults R T × List (QueryEvent R T) :=
  let responseResults := conventions.tryFetchResults response
  if responseResults.length > 0 then
    let responseIncludes := conventions.tryFetchIncludes response
    let results := responseResults.map (fun r => (conventions.convertToDocument r).document)
    let fetchedEvents := responseResults.filterMap (fun r =>
      if conventions.checkIsProjection r then none
      else some (QueryEvent.documentFetched (conventions.convertToDocument r)))
    let includesEvents : List (QueryEvent R T) :=
      if responseIncludes.length ≠ 0 then [QueryEvent.includesFetched responseIncludes] else []
    (if withStatistics then ConvertedResults.withStats results response
     else ConvertedResults.plain results,
     fetchedEvents ++ includesEvents)
  else
    (ConvertedResults.plain [], [])

/-- The paging / statistics fields of `DocumentQueryBase` that the terminal
methods temporarily overwrite: `_take`, `_skip` (null meaning default) and
`withStatistics`. -/
structure ExecState where
  take : Option Int
  skip : Option Int
  withStatistics : Bool
deriving Repr, DecidableEq

/-- The error surfaced by a terminal method: an `InvalidOperationException`
raised by `single` itself, or any error propagated from the execution step. -/
inductive QueryError where
  | invalidOperation (message : String)
  | executionError (message : String)
deriving Repr, DecidableEq

/-- `single`'s error message for more than one result. -/
def moreThanOneResultMessage : String :=
  "There\x27s more than one result corresponding to given query criteria."

/-- `single`'s error message for no results. -/
def noResultsMessage : String :=
  "There\x27s no results corresponding to given query criteria."

/-- The state `single` forces before executing: take=2, skip=0,
statistics=false. -/
def singleForcedState : ExecState := ExecState.mk (some 2) (some 0) false

/-- The state `first` forces before executing: take=1, skip=0,
statistics=false. -/
def firstForcedState : ExecState := ExecState.mk (some 1) (some 0) false

/-- `DocumentQueryBase.single`: saves `_take` / `_skip` / `withStatistics`,
overwrites them with `singleForcedState`, runs the execution step (modelled as
the oracle `exec`, consulted at the state current when `executeQuery` runs),
converts with statistics forced off, rejects unless exactly one result came
back (with a distinct message for zero and for more than one), and in a final
step restores the three saved fields on every path.  The second component is
the query's field state after the call settles. -/
def single {R T : Type} (conventions : Conventions R T)
    (exec : ExecState → Except String (Response R)) (st : ExecState) :
    Except QueryError (Option T) × ExecState :=
  let outcome : Except QueryError (Option T) :=
    match exec singleForcedState with
    | Except.error e => Except.error (QueryError.executionError e)
    | Except.ok response =>
      let results :=
        (convertResponseToDocuments conventions singleForcedState.withStatistics response).1.resultsList
      let result : Option T := results.head?
      if results.length ≠ 1 then
        Except.error (QueryError.invalidOperation
          (if results.length > 1 then moreThanOneResultMessage else noResultsMessage))
      else
        Except.ok result
  (outcome, ExecState.mk st.take st.skip st.withStatistics)

/-- `DocumentQueryBase.first`: forces take=1, skip=0, statistics=false,
returns the first converted result or null if none, and restores the saved
fields on every path. -/
def first {R T : Type} (conventions : Conventions R T)
    (exec : ExecState → Except String (Response R)) (st : ExecState) :
    Except QueryError (Option T) × ExecState :=
  let outcome : Except QueryError (Option T) :=
    match exec firstForcedState with
    | Except.error e => Except.error (QueryError.executionError e)
    | Except.ok response =>
      let results :=
        (convertResponseToDocuments conventions firstForcedState.withStatistics response).1.resultsList
      Except.ok results.head?
  (outcome, ExecState.mk st.take st.skip st.withStatistics)

/-- `DocumentQueryBase.count`: saves `_take` / `_skip` only, forces take=0 and
skip=0 (leaving `withStatistics` as it was), returns
`response.TotalResults || 0`, and restores the saved fields on every path. -/
def count {R : Type} (exec : ExecState → Except String (Response R)) (st : ExecState) :
    Except QueryError Int × ExecState :=
  let outcome : Except QueryError Int :=
    match exec (ExecState.mk (some 0) (some 0) st.withStatistics) with
    | Except.error e => Except.error (QueryError.executionError e)
    | Except.ok response => Except.ok (response.totalResults.getD 0)
  (outcome, ExecState.mk st.take st.skip st.withStatistics)

/-! ### Helpers for stating the claims -/

/-- A concrete date renderer used to instantiate the abstract
`DateUtil.stringify` collaborator in closed statements. -/
def dateToString0 : Nat → String := fun d => toString d

/-- The parameter table of the state resulting from a filter call (empty on an
error, which registers nothing). -/
def paramsOf (r : Except String QueryState) : List (String × ConditionValue) :=
  match r with
  | Except.ok st => st.queryParameters
  | Except.error _ => []

/-- The builder-call log of the state resulting from a filter call. -/
def callsOf (r : Except String QueryState) : List BuilderCall :=
  match r with
  | Except.ok st => st.builderCalls
  | Except.error _ => []

/-- The values `transformValue` rejects: arrays and non-`Date` objects (the
source accepts exactly null, the empty string, `Date`, and
boolean / number / string). -/
def isUnsupportedValue : ConditionValue → Bool
  | ConditionValue.arr _ => true
  | ConditionValue.obj => true
  | _ => false

/-- The conversion-result payloads of the `documentFetched` notifications in
an event list, in emission order. -/
def documentFetchedPayloads {R T : Type} (events : List (QueryEvent R T)) :
    List (ConversionResult T) :=
  events.filterMap (fun e =>
    match e with
    | QueryEvent.documentFetched conversionResult => some conversionResult
    | _ => none)

/-- The batch payloads of the `includesFetched` notifications in an event
list, in emission order. -/
def includesFetchedPayloads {R T : Type} (events : List (QueryEvent R T)) :
    List (List R) :=
  events.filterMap (fun e =>
    match e with
    | QueryEvent.includesFetched includes => some includes
    | _ => none)

/-- A concrete conventions collaborator over `Nat` raw documents, fetching
`Results` / `Includes` straight from the envelope, converting a raw document
to itself and flagging nothing as a projection. -/
def conventionsNat : Conventions Nat Nat :=
  Conventions.mk (fun response => response.results) (fun response => response.includes)
    (fun r => ConversionResult.mk r) (fun _ => false)

/-- Like `conventionsNat`, but flagging even raw documents as projections. -/
def conventionsProj : Conventions Nat Nat :=
  Conventions.mk (fun response => response.results) (fun response => response.includes)
    (fun r => ConversionResult.mk r) (fun r => decide (r % 2 = 0))

/-- A concrete one-result response envelope. -/
def respOne : Response Nat := Response.mk [5] [] (some 1) false

/-- A concrete prior paging / statistics state. -/
def stPrior : ExecState := ExecState.mk (some 9) (some 4) true

/-- A concrete execution step always delivering `respOne`. -/
def exec0 : ExecState → Except String (Response Nat) := fun _ => Except.ok respOne

/-- A concrete stale response envelope. -/
def staleResp : Response Nat := Response.mk [] [] (some 0) true

/-- A concrete non-stale response envelope. -/
def freshResp : Response Nat := Response.mk [3] [] (some 1) false

/-- A concrete envelope with an empty result set but a non-empty includes
set. -/
def respEmptyWithIncludes : Response Nat := Response.mk [] [7] (some 0) false

/-- A concrete envelope with results `[1,2,3]` and includes `[9]`. -/
def resp9 : Response Nat := Response.mk [1, 2, 3] [9] (some 3) false

theorem transformValue_unsupported (stringifyDate : Nat → String)
    (whereParams : WhereParams) (h : isUnsupportedValue whereParams.value = true) :
    transformValue stringifyDate whereParams = Except.error invalidValueMessage := by
  unfold transformValue
  cases hv : whereParams.value <;> simp [hv, isUnsupportedValue] at h ⊢

/-! ### Claim C1 -/

/-- Claim C1 (counterexample): `whereBetween('age', null, 30)` binds the
sentinel `'*'` — not `'NULL'` — as the lower value `p0`, and
`whereBetween('age', 18, null)` binds `'NULL'` — not `'*'` — as the upper
value `p1`. -/
theorem C1_counterexample :
    paramsOf (whereBetween dateToString0 initialState "age"
        ConditionValue.null (ConditionValue.num 30) none) =
      [(parameterName 0, ConditionValue.str "*"), (parameterName 1, ConditionValue.num 30)] ∧
    paramsOf (whereBetween dateToString0 initialState "age"
        ConditionValue.null (ConditionValue.num 30) none) ≠
      [(parameterName 0, ConditionValue.str "NULL"), (parameterName 1, ConditionValue.num 30)] ∧
    paramsOf (whereBetween dateToString0 initialState "age"
        (ConditionValue.num 18) ConditionValue.null none) =
      [(parameterName 0, ConditionValue.num 18), (parameterName 1, ConditionValue.str "NULL")] ∧
    paramsOf (whereBetween dateToString0 initialState "age"
        (ConditionValue.num 18) ConditionValue.null none) ≠
      [(parameterName 0, ConditionValue.num 18), (parameterName 1, ConditionValue.str "*")] := by
  decide

/-- Claim C1 (amended): a null lower endpoint is bound as the sentinel string
`'*'` and a null upper endpoint as `'NULL'`: `whereBetween(f, null, v)` binds
`'*'` then the transformed `v`; `whereBetween(f, v, null)` binds the
transformed `v` then `'NULL'`; `whereGreaterThan[OrEqual](f, null)` binds
`'*'`; `whereLessThan[OrEqual](f, null)` binds `'NULL'`; and in every case the
builder receives the two (respectively one) freshly generated parameter
names, so the rendered clause always has its operands. -/
theorem C1_sentinels (stringifyDate : Nat → String) (st : QueryState)
    (fieldName : String) (v tv : ConditionValue) (exact : Option Bool)
    (hv : isNullValue v = false)
    (ht : transformValue stringifyDate (WhereParams.mk fieldName v (exact.getD false) false) =
      Except.ok tv) :
    whereBetween stringifyDate st fieldName ConditionValue.null v exact =
      Except.ok (QueryState.mk
        (st.queryParameters ++
          [(parameterName st.queryParameters.length, ConditionValue.str "*"),
           (parameterName (st.queryParameters.length + 1), tv)])
        (st.builderCalls ++
          [BuilderCall.whereBetween fieldName (parameterName st.queryParameters.length)
            (parameterName (st.queryParameters.length + 1)) exact])) ∧
    whereBetween stringifyDate st fieldName v ConditionValue.null exact =
      Except.ok (QueryState.mk
        (st.queryParameters ++
          [(parameterName st.queryParameters.length, tv),
           (parameterName (st.queryParameters.length + 1), ConditionValue.str "NULL")])
        (st.builderCalls ++
          [BuilderCall.whereBetween fieldName (parameterName st.queryParameters.length)
            (parameterName (st.queryParameters.length + 1)) exact])) ∧
    whereGreaterThan stringifyDate st fieldName ConditionValue.null exact =
      Except.ok (QueryState.mk
        (st.queryParameters ++ [(parameterName st.queryParameters.length, ConditionValue.str "*")])
        (st.builderCalls ++
          [BuilderCall.whereGreaterThan fieldName (parameterName st.queryParameters.length) exact])) ∧
    whereGreaterThanOrEqual stringifyDate st fieldName ConditionValue.null exact =
      Except.ok (QueryState.mk
        (st.queryParameters ++ [(parameterName st.queryParameters.length, ConditionValue.str "*")])
        (st.builderCalls ++
          [BuilderCall.whereGreaterThanOrEqual fieldName
            (parameterName st.queryParameters.length) exact])) ∧
    whereLessThan stringifyDate st fieldName ConditionValue.null exact =
      Except.ok (QueryState.mk
        (st.queryParameters ++ [(parameterName st.queryParameters.length, ConditionValue.str "NULL")])
        (st.builderCalls ++
          [BuilderCall.whereLessThan fieldName (parameterName st.queryParameters.length) exact])) ∧
    whereLessThanOrEqual stringifyDate st fieldName ConditionValue.null exact =
      Except.ok (QueryState.mk
        (st.queryParameters ++ [(parameterName st.queryParameters.length, ConditionValue.str "NULL")])
        (st.builderCalls ++
          [BuilderCall.whereLessThanOrEqual fieldName
            (parameterName st.queryParameters.length) exact])) := by
  have hnull : isNullValue ConditionValue.null = true := rfl
  refine ⟨?_, ?_, ?_, ?_, ?_, ?_⟩ <;>
    simp [whereBetween, whereGreaterThan, whereGreaterThanOrEqual, whereLessThan,
      whereLessThanOrEqual, hnull, hv, ht, addQueryParameter, recordBuilderCall]

/-- Claim C1 (witness): the amended statement applied at
`whereBetween('age', null, 30)` on a fresh query. -/
theorem C1_sentinels_witness :
    whereBetween dateToString0 initialState "age"
        ConditionValue.null (ConditionValue.num 30) none =
      Except.ok (QueryState.mk
        (initialState.queryParameters ++
          [(parameterName initialState.queryParameters.length, ConditionValue.str "*"),
           (parameterName (initialState.queryParameters.length + 1), ConditionValue.num 30)])
        (initialState.builderCalls ++
          [BuilderCall.whereBetween "age" (parameterName initialState.queryParameters.length)
            (parameterName (initialState.queryParameters.length + 1)) none])) :=
  (C1_sentinels dateToString0 initialState "age" (ConditionValue.num 30)
    (ConditionValue.num 30) none rfl rfl).1

/-! ### Claim C2 -/

/-- Claim C2 (code evaluated at the failing input): `whereIn('x', [[1,2],3])`
registers the ORIGINAL nested values array under `p0`, even though the
flattened transformed list `[1,2,3]` is computed (second conjunct) — it is
simply never used.  By contrast `containsAny` / `containsAll` on the same
input register the flat transformed list, as the claim describes. -/
theorem C2_whereIn_binds_original :
    paramsOf (whereIn dateToString0 initialState "x"
        [ConditionValue.arr [ConditionValue.num 1, ConditionValue.num 2], ConditionValue.num 3]
        none) =
      [(parameterName 0,
        ConditionValue.arr
          [ConditionValue.arr [ConditionValue.num 1, ConditionValue.num 2],
           ConditionValue.num 3])] ∧
    transformValuesArray dateToString0 "x"
        [ConditionValue.arr [ConditionValue.num 1, ConditionValue.num 2], ConditionValue.num 3] =
      Except.ok [ConditionValue.num 1, ConditionValue.num 2, ConditionValue.num 3] ∧
    paramsOf (containsAny dateToString0 initialState "x"
        [ConditionValue.arr [ConditionValue.num 1, ConditionValue.num 2], ConditionValue.num 3]) =
      [(parameterName 0,
        ConditionValue.arr [ConditionValue.num 1, ConditionValue.num 2, ConditionValue.num 3])] ∧
    paramsOf (containsAll dateToString0 initialState "x"
        [ConditionValue.arr [ConditionValue.num 1, ConditionValue.num 2], ConditionValue.num 3]) =
      [(parameterName 0,
        ConditionValue.arr [ConditionValue.num 1, ConditionValue.num 2, ConditionValue.num 3])] := by
  decide

/-! ### Claim C3 -/

/-- Claim C3 (counterexample): `whereIn('x', [])` is NOT a no-op — it
registers the empty array under a fresh parameter and emits a `whereIn`
builder call; the rendered query and the parameter table both change. -/
theorem C3_counterexample :
    paramsOf (whereIn dateToString0 initialState "x" [] none) =
      [(parameterName 0, ConditionValue.arr [])] ∧
    paramsOf (whereIn dateToString0 initialState "x" [] none) ≠ [] ∧
    callsOf (whereIn dateToString0 initialState "x" [] none) =
      [BuilderCall.whereIn "x" (parameterName 0) none] ∧
    callsOf (whereIn dateToString0 initialState "x" [] none) ≠ [] := by
  decide

/-- Claim C3 (amended): for `containsAny` / `containsAll`, a values array
whose flattened form is empty adds no clause and registers no parameter — the
call returns the state unchanged; `whereIn`, by contrast, has no empty-list
guard: it always registers the (possibly empty) original values array and
emits its builder call. -/
theorem C3_empty_values (stringifyDate : Nat → String) (st : QueryState)
    (fieldName : String) (values : List ConditionValue) (exact : Option Bool)
    (h : unpackValuesArray values = []) :
    containsAny stringifyDate st fieldName values = Except.ok st ∧
    containsAll stringifyDate st fieldName values = Except.ok st ∧
    whereIn stringifyDate st fieldName values exact =
      Except.ok (QueryState.mk
        (st.queryParameters ++
          [(parameterName st.queryParameters.length, ConditionValue.arr values)])
        (st.builderCalls ++
          [BuilderCall.whereIn fieldName (parameterName st.queryParameters.length) exact])) := by
  refine ⟨?_, ?_, ?_⟩ <;>
    simp [containsAny, containsAll, whereIn, transformValuesArray, transformEach, h,
      addQueryParameter, recordBuilderCall]

/-- Claim C3 (witness): the amended statement applied to
`containsAny('x', [[]])`, whose flattened form is empty. -/
theorem C3_empty_values_witness :
    containsAny dateToString0 initialState "x" [ConditionValue.arr []] =
      Except.ok initialState :=
  (C3_empty_values dateToString0 initialState "x" [ConditionValue.arr []] none rfl).1

/-! ### Claim C4 -/

/-- Claim C4: `single()` requires exactly one result: with zero results it
fails with the no-results `InvalidOperationException`, with two or more it
fails with the distinct more-than-one message, with exactly one it returns
that entity; the prior take / skip / statistics fields are restored
afterwards, and the execution step is consulted only at the forced state
take=2, skip=0, statistics=false (last conjunct: `single` cannot distinguish
execution oracles that agree at the forced state). -/
theorem C4_single_shaping {R T : Type} (conventions : Conventions R T)
    (exec : ExecState → Except String (Response R)) (st : ExecState) (response : Response R)
    (h : exec singleForcedState = Except.ok response) :
    (single conventions exec st).2 = st ∧
    (((convertResponseToDocuments conventions false response).1.resultsList).length = 0 →
      (single conventions exec st).1 =
        Except.error (QueryError.invalidOperation noResultsMessage)) ∧
    (1 < ((convertResponseToDocuments conventions false response).1.resultsList).length →
      (single conventions exec st).1 =
        Except.error (QueryError.invalidOperation moreThanOneResultMessage)) ∧
    (∀ a : T, (convertResponseToDocuments conventions false response).1.resultsList = [a] →
      (single conventions exec st).1 = Except.ok (some a)) ∧
    (∀ exec' : ExecState → Except String (Response R),
      exec' singleForcedState = exec singleForcedState →
      single conventions exec' st = single conventions exec st) := by
  simp only [singleForcedState] at h
  refine ⟨rfl, ?_, ?_, ?_, ?_⟩
  · intro hl
    simp [single, singleForcedState, h, hl]
  · intro hl
    have h1 : ((convertResponseToDocuments conventions false response).1.resultsList).length ≠ 1 := by
      omega
    simp [single, singleForcedState, h, h1, hl]
  · intro a ha
    simp [single, singleForcedState, h, ha]
  · intro exec' he
    simp [single, he]

/-- Claim C4 (witness): on a one-result response, `single` returns that
entity and restores the prior state. -/
theorem C4_single_shaping_witness :
    (single conventionsNat exec0 stPrior).1 = Except.ok (some 5) ∧
    (single conventionsNat exec0 stPrior).2 = stPrior := by
  have h := C4_single_shaping conventionsNat exec0 stPrior respOne rfl
  exact ⟨h.2.2.2.1 5 rfl, h.1⟩

/-! ### Claim C5 -/

/-- Claim C5: `executeQuery` resolves a null execution-layer response to the
synthesized empty envelope, fails a response flagged `IsStale` with the
staleness error, passes any other response through unchanged, and propagates
an execution-layer rejection. -/
theorem C5_executeQuery_shape (R : Type) :
    executeQuery (R := R) (Except.ok none) = Except.ok (emptyEnvelope R) ∧
    (∀ response : Response R, response.isStale = true →
      executeQuery (Except.ok (some response)) = Except.error staleResponseMessage) ∧
    (∀ response : Response R, response.isStale = false →
      executeQuery (Except.ok (some response)) = Except.ok response) ∧
    (∀ e : String, executeQuery (R := R) (Except.error e) = Except.error e) := by
  refine ⟨rfl, ?_, ?_, fun e => rfl⟩ <;> intro response h <;> simp [executeQuery, h]

/-- Claim C5 (witness): the stale and non-stale cases at concrete
envelopes. -/
theorem C5_executeQuery_shape_witness :
    executeQuery (Except.ok (some staleResp)) = Except.error staleResponseMessage ∧
    executeQuery (Except.ok (some freshResp)) = Except.ok freshResp := by
  have h := C5_executeQuery_shape Nat
  exact ⟨h.2.1 staleResp rfl, h.2.2.1 freshResp rfl⟩

/-! ### Claim C6 -/

/-- Claim C6: an unsupported value (an array or any non-`Date` object) passed
to a filter method makes the call fail with the invalid-value error — and,
since the transform runs before `addQueryParameter` and before any builder
call, the failing call produces no new state (the embedding's error outcome
carries no state: the input state is untouched); null passes through as null,
the empty string as itself, a `Date` as its stringified form, and
boolean / number / string values unchanged. -/
theorem C6_invalid_value_rejected (stringifyDate : Nat → String) (st : QueryState)
    (fieldName : String) (v : ConditionValue) (exactB : Bool) (exactO : Option Bool)
    (h : isUnsupportedValue v = true) :
    whereEquals stringifyDate st fieldName v exactB = Except.error invalidValueMessage ∧
    whereNotEquals stringifyDate st fieldName v exactB = Except.error invalidValueMessage ∧
    whereBetween stringifyDate st fieldName v (ConditionValue.num 30) exactO =
      Except.error invalidValueMessage ∧
    whereBetween stringifyDate st fieldName (ConditionValue.num 18) v exactO =
      Except.error invalidValueMessage ∧
    whereIn stringifyDate st fieldName [ConditionValue.obj, ConditionValue.num 3] exactO =
      Except.error invalidValueMessage ∧
    transformValue stringifyDate (WhereParams.mk fieldName ConditionValue.null exactB false) =
      Except.ok ConditionValue.null ∧
    transformValue stringifyDate (WhereParams.mk fieldName (ConditionValue.str "") exactB false) =
      Except.ok (ConditionValue.str "") ∧
    (∀ d : Nat,
      transformValue stringifyDate (WhereParams.mk fieldName (ConditionValue.date d) exactB false) =
        Except.ok (ConditionValue.str (stringifyDate d))) ∧
    (∀ b : Bool,
      transformValue stringifyDate (WhereParams.mk fieldName (ConditionValue.bool b) exactB false) =
        Except.ok (ConditionValue.bool b)) ∧
    (∀ n : Int,
      transformValue stringifyDate (WhereParams.mk fieldName (ConditionValue.num n) exactB false) =
        Except.ok (ConditionValue.num n)) ∧
    (∀ s : String,
      transformValue stringifyDate (WhereParams.mk fieldName (ConditionValue.str s) exactB false) =
        Except.ok (ConditionValue.str s)) := by
  cases v
  case arr vs =>
    refine ⟨?_, ?_, ?_, ?_, rfl, rfl, rfl, fun d => rfl, fun b => rfl, fun n => rfl,
      fun s => rfl⟩ <;>
      simp [whereEquals, whereNotEquals, whereBetween, transformValue, isNullValue]
  case obj =>
    exact ⟨rfl, rfl, rfl, rfl, rfl, rfl, rfl, fun d => rfl, fun b => rfl, fun n => rfl,
      fun s => rfl⟩
  all_goals simp [isUnsupportedValue] at h

/-- Claim C6 (witness): a plain object passed to `whereEquals` is rejected
with the invalid-value message. -/
theorem C6_invalid_value_rejected_witness :
    whereEquals dateToString0 initialState "f" ConditionValue.obj false =
      Except.error invalidValueMessage :=
  (C6_invalid_value_rejected dateToString0 initialState "f" ConditionValue.obj false none
    rfl).1

/-! ### Claim C7 -/

/-- Claim C7: `single`, `first` and `count` restore the saved take / skip
(and statistics) fields on every exit path — the restored state equals the
prior state for EVERY execution oracle, including every failing one, since
the restoring step is unconditional. -/
theorem C7_state_restoration {R T : Type} (conventions : Conventions R T)
    (exec : ExecState → Except String (Response R)) (st : ExecState) :
    (single conventions exec st).2 = st ∧
    (first conventions exec st).2 = st ∧
    (count exec st).2 = st :=
  ⟨rfl, rfl, rfl⟩

/-! ### Claim C8 -/

/-- Claim C8 (counterexample): with statistics mode enabled and an empty
result set, `convertResponseToDocuments` returns the plain empty sequence —
NOT the statistics pair the claim describes (the `withStatistics` shaping is
inside the non-empty branch). It does emit no notifications. -/
theorem C8_counterexample :
    convertResponseToDocuments conventionsNat true respEmptyWithIncludes =
      (ConvertedResults.plain [], []) ∧
    (convertResponseToDocuments conventionsNat true respEmptyWithIncludes).1 ≠
      ConvertedResults.withStats [] respEmptyWithIncludes := by
  refine ⟨rfl, ?_⟩
  intro hcontra
  simp [convertResponseToDocuments, conventionsNat, respEmptyWithIncludes] at hcontra

/-- Claim C8 (amended): for an empty fetched result set,
`convertResponseToDocuments` returns the plain empty sequence in BOTH modes
(the statistics pair is never produced for an empty result set) and emits no
notifications. -/
theorem C8_empty_results {R T : Type} (conventions : Conventions R T)
    (withStatistics : Bool) (response : Response R)
    (h : conventions.tryFetchResults response = []) :
    convertResponseToDocuments conventions withStatistics response =
      (ConvertedResults.plain [], []) := by
  simp [convertResponseToDocuments, h]

/-- Claim C8 (witness): the amended statement at a concrete empty-results
envelope with statistics enabled. -/
theorem C8_empty_results_witness :
    convertResponseToDocuments conventionsNat true respEmptyWithIncludes =
      (ConvertedResults.plain [], []) :=
  C8_empty_results conventionsNat true respEmptyWithIncludes rfl

/-! ### Claim C9 -/

theorem documentFetchedPayloads_append {R T : Type} (a b : List (QueryEvent R T)) :
    documentFetchedPayloads (a ++ b) =
      documentFetchedPayloads a ++ documentFetchedPayloads b := by
  simp [documentFetchedPayloads, List.filterMap_append]

theorem includesFetchedPayloads_append {R T : Type} (a b : List (QueryEvent R T)) :
    includesFetchedPayloads (a ++ b) =
      includesFetchedPayloads a ++ includesFetchedPayloads b := by
  simp [includesFetchedPayloads, List.filterMap_append]

theorem documentFetchedPayloads_ofFetchEvents {R T : Type} (conventions : Conventions R T)
    (rs : List R) :
    documentFetchedPayloads (rs.filterMap (fun r =>
        if conventions.checkIsProjection r then
          (none : Option (QueryEvent R T))
        else some (QueryEvent.documentFetched (conventions.convertToDocument r)))) =
      (rs.filter (fun r => ! conventions.checkIsProjection r)).map
        (fun r => conventions.convertToDocument r) := by
  induction rs with
  | nil => rfl
  | cons r rs ih =>
    cases hp : conventions.checkIsProjection r <;>
      simp [List.filterMap_cons, List.filter_cons, hp, documentFetchedPayloads] <;>
      simpa [documentFetchedPayloads] using ih

theorem includesFetchedPayloads_ofFetchEvents {R T : Type} (conventions : Conventions R T)
    (rs : List R) :
    includesFetchedPayloads (rs.filterMap (fun r =>
        if conventions.checkIsProjection r then
          (none : Option (QueryEvent R T))
        else some (QueryEvent.documentFetched (conventions.convertToDocument r)))) = [] := by
  induction rs with
  | nil => rfl
  | cons r rs ih =>
    cases hp : conventions.checkIsProjection r <;>
      simp [List.filterMap_cons, hp, includesFetchedPayloads] <;>
      simpa [includesFetchedPayloads] using ih

theorem documentFetchedPayloads_nil {R T : Type} :
    documentFetchedPayloads ([] : List (QueryEvent R T)) = [] := rfl

theorem includesFetchedPayloads_nil {R T : Type} :
    includesFetchedPayloads ([] : List (QueryEvent R T)) = [] := rfl

theorem documentFetchedPayloads_includesSingleton {R T : Type} (b : List R) :
    documentFetchedPayloads [(QueryEvent.includesFetched b : QueryEvent R T)] = [] := rfl

theorem includesFetchedPayloads_includesSingleton {R T : Type} (b : List R) :
    includesFetchedPayloads [(QueryEvent.includesFetched b : QueryEvent R T)] = [b] := rfl

/-- Claim C9: during conversion of a non-empty result set, the
`documentFetched` payload stream is exactly one conversion result per
non-projection raw document, in result order (so projections emit nothing and
non-projections exactly once each), and the `includesFetched` payload stream
is empty when no includes are present and exactly one whole-batch payload
when they are. -/
theorem C9_notifications {R T : Type} (conventions : Conventions R T)
    (withStatistics : Bool) (response : Response R)
    (h : conventions.tryFetchResults response ≠ []) :
    documentFetchedPayloads (convertResponseToDocuments conventions withStatistics response).2 =
      ((conventions.tryFetchResults response).filter
        (fun r => ! conventions.checkIsProjection r)).map
        (fun r => conventions.convertToDocument r) ∧
    (conventions.tryFetchIncludes response = [] →
      includesFetchedPayloads
        (convertResponseToDocuments conventions withStatistics response).2 = []) ∧
    (conventions.tryFetchIncludes response ≠ [] →
      includesFetchedPayloads
        (convertResponseToDocuments conventions withStatistics response).2 =
        [conventions.tryFetchIncludes response]) := by
  have hl : 0 < (conventions.tryFetchResults response).length :=
    List.length_pos.mpr h
  refine ⟨?_, ?_, ?_⟩
  · rcases Classical.em (conventions.tryFetchIncludes response = []) with hi | hi
    · simp [convertResponseToDocuments, hl, hi, documentFetchedPayloads_append,
        documentFetchedPayloads_ofFetchEvents, documentFetchedPayloads_nil,
        documentFetchedPayloads_includesSingleton]
    · have hil : (conventions.tryFetchIncludes response).length ≠ 0 := by
        simpa [List.length_eq_zero] using hi
      simp [convertResponseToDocuments, hl, hil, documentFetchedPayloads_append,
        documentFetchedPayloads_ofFetchEvents, documentFetchedPayloads_nil,
        documentFetchedPayloads_includesSingleton]
  · intro hi
    simp [convertResponseToDocuments, hl, hi, includesFetchedPayloads_append,
      includesFetchedPayloads_ofFetchEvents, includesFetchedPayloads_nil,
      includesFetchedPayloads_includesSingleton]
  · intro hi
    have hil : (conventions.tryFetchIncludes response).length ≠ 0 := by
      simpa [List.length_eq_zero] using hi
    simp [convertResponseToDocuments, hl, hil, includesFetchedPayloads_append,
      includesFetchedPayloads_ofFetchEvents, includesFetchedPayloads_nil,
      includesFetchedPayloads_includesSingleton]

/-- Claim C9 (witness): applied at a concrete response with results
`[1,2,3]` (of which `2` is flagged as a projection) and includes `[9]`. -/
theorem C9_notifications_witness :
    documentFetchedPayloads (convertResponseToDocuments conventionsProj false resp9).2 =
      ((conventionsProj.tryFetchResults resp9).filter
        (fun r => ! conventionsProj.checkIsProjection r)).map
        (fun r => conventionsProj.convertToDocument r) ∧
    includesFetchedPayloads (convertResponseToDocuments conventionsProj false resp9).2 =
      [conventionsProj.tryFetchIncludes resp9] := by
  have h := C9_notifications conventionsProj false resp9 (by decide)
  exact ⟨h.1, h.2.2 (by decide)⟩

/-! ### Claim C10 -/

/-- Claim C10: the two-argument `selectFields(fields, projections)` overload
has exactly the same effect on the query state as `selectFields(fields)` —
the projections argument is discarded, and the builder call that is recorded
carries no projections. -/
theorem C10_selectFields_discards_projections (st : QueryState) (fields : List String)
    (projections : Option (List String)) :
    selectFields st fields projections = selectFields st fields none ∧
    selectFields st fields projections =
      QueryState.mk st.queryParameters
        (st.builderCalls ++ [BuilderCall.selectFields fields none]) :=
  ⟨rfl, rfl⟩

end RavenQuery
